import Mathlib

/-!
Shallow embedding of the base-cell topology layer of the h3o crate
(`src/base_cell.rs`): the 122 resolution-0 cells of the icosahedral grid,
their pentagon classification, neighbor adjacency, cross-face rotation
bookkeeping, and pentagon direction-to-face mapping.

A `BaseCell` is a `repr(transparent)` wrapper around its `u8` value; it is
modelled here by that value as a `Nat`.  A `Face` (0–19) and a `Direction`
(0–6, center first, `K` axe at index 1) are likewise modelled by their
numeric values.  The static tables are transcribed verbatim from the
source (the packed `u64` rotation entries are written in hexadecimal,
same numeric values as the source's binary literals).
-/

/-- Maximum value for a base cell (`MAX` in `base_cell.rs`). -/
def MAX : Nat := 121

/-- Bitmap where a bit's position represents a base cell value
(`BASE_PENTAGONS` in `base_cell.rs`). -/
def BASE_PENTAGONS : Nat := 0x00200802000801008402004001004010

/-- A 3-component cube coordinate.  External primitive (`CoordIJK`),
consumed by the core as an immutable value type. -/
structure CoordIJK where
  i : Int
  j : Int
  k : Int

/-- Base cell associated metadata (`Metadata` in `base_cell.rs`): home face,
`IJK` coordinates on the home face, and, for pentagons only, the two
clockwise offset rotation adjacent faces. -/
structure Metadata where
  home : Nat
  coord : CoordIJK
  cwOffsetPent : Option (Nat × Nat)

/-- Modelled from the spec: the typed failure of the validated constructor,
a failure "carrying the offending value and a reason string"
(`error::InvalidBaseCell`, whose module is outside the provided sources). -/
structure InvalidBaseCell where
  value : Nat
  reason : String
  deriving DecidableEq
def NEIGHBORS : List (List Nat) := [
  [0, 1, 5, 2, 4, 3, 8],
  [1, 7, 6, 9, 0, 3, 2],
  [2, 6, 10, 11, 0, 1, 5],
  [3, 13, 1, 7, 4, 12, 0],
  [4, 0xff, 15, 8, 3, 0, 12],
  [5, 2, 18, 10, 8, 0, 16],
  [6, 14, 11, 17, 1, 9, 2],
  [7, 21, 9, 19, 3, 13, 1],
  [8, 5, 22, 16, 4, 0, 15],
  [9, 19, 14, 20, 1, 7, 6],
  [10, 11, 24, 23, 5, 2, 18],
  [11, 17, 23, 25, 2, 6, 10],
  [12, 28, 13, 26, 4, 15, 3],
  [13, 26, 21, 29, 3, 12, 7],
  [14, 0xff, 17, 27, 9, 20, 6],
  [15, 22, 28, 31, 4, 8, 12],
  [16, 18, 33, 30, 8, 5, 22],
  [17, 11, 14, 6, 35, 25, 27],
  [18, 24, 30, 32, 5, 10, 16],
  [19, 34, 20, 36, 7, 21, 9],
  [20, 14, 19, 9, 40, 27, 36],
  [21, 38, 19, 34, 13, 29, 7],
  [22, 16, 41, 33, 15, 8, 31],
  [23, 24, 11, 10, 39, 37, 25],
  [24, 0xff, 32, 37, 10, 23, 18],
  [25, 23, 17, 11, 45, 39, 35],
  [26, 42, 29, 43, 12, 28, 13],
  [27, 40, 35, 46, 14, 20, 17],
  [28, 31, 42, 44, 12, 15, 26],
  [29, 43, 38, 47, 13, 26, 21],
  [30, 32, 48, 50, 16, 18, 33],
  [31, 41, 44, 53, 15, 22, 28],
  [32, 30, 24, 18, 52, 50, 37],
  [33, 30, 49, 48, 22, 16, 41],
  [34, 19, 38, 21, 54, 36, 51],
  [35, 46, 45, 56, 17, 27, 25],
  [36, 20, 34, 19, 55, 40, 54],
  [37, 39, 52, 57, 24, 23, 32],
  [38, 0xff, 34, 51, 29, 47, 21],
  [39, 37, 25, 23, 59, 57, 45],
  [40, 27, 36, 20, 60, 46, 55],
  [41, 49, 53, 61, 22, 33, 31],
  [42, 58, 43, 62, 28, 44, 26],
  [43, 62, 47, 64, 26, 42, 29],
  [44, 53, 58, 65, 28, 31, 42],
  [45, 39, 35, 25, 63, 59, 56],
  [46, 60, 56, 68, 27, 40, 35],
  [47, 38, 43, 29, 69, 51, 64],
  [48, 49, 30, 33, 67, 66, 50],
  [49, 0xff, 61, 66, 33, 48, 41],
  [50, 48, 32, 30, 70, 67, 52],
  [51, 69, 54, 71, 38, 47, 34],
  [52, 57, 70, 74, 32, 37, 50],
  [53, 61, 65, 75, 31, 41, 44],
  [54, 71, 55, 73, 34, 51, 36],
  [55, 40, 54, 36, 72, 60, 73],
  [56, 68, 63, 77, 35, 46, 45],
  [57, 59, 74, 78, 37, 39, 52],
  [58, 0xff, 62, 76, 44, 65, 42],
  [59, 63, 78, 79, 39, 45, 57],
  [60, 72, 68, 80, 40, 55, 46],
  [61, 53, 49, 41, 81, 75, 66],
  [62, 43, 58, 42, 82, 64, 76],
  [63, 0xff, 56, 45, 79, 59, 77],
  [64, 47, 62, 43, 84, 69, 82],
  [65, 58, 53, 44, 86, 76, 75],
  [66, 67, 81, 85, 49, 48, 61],
  [67, 66, 50, 48, 87, 85, 70],
  [68, 56, 60, 46, 90, 77, 80],
  [69, 51, 64, 47, 89, 71, 84],
  [70, 67, 52, 50, 83, 87, 74],
  [71, 89, 73, 91, 51, 69, 54],
  [72, 0xff, 73, 55, 80, 60, 88],
  [73, 91, 72, 88, 54, 71, 55],
  [74, 78, 83, 92, 52, 57, 70],
  [75, 65, 61, 53, 94, 86, 81],
  [76, 86, 82, 96, 58, 65, 62],
  [77, 63, 68, 56, 93, 79, 90],
  [78, 74, 59, 57, 95, 92, 79],
  [79, 78, 63, 59, 93, 95, 77],
  [80, 68, 72, 60, 99, 90, 88],
  [81, 85, 94, 101, 61, 66, 75],
  [82, 96, 84, 98, 62, 76, 64],
  [83, 0xff, 74, 70, 100, 87, 92],
  [84, 69, 82, 64, 97, 89, 98],
  [85, 87, 101, 102, 66, 67, 81],
  [86, 76, 75, 65, 104, 96, 94],
  [87, 83, 102, 100, 67, 70, 85],
  [88, 72, 91, 73, 99, 80, 105],
  [89, 97, 91, 103, 69, 84, 71],
  [90, 77, 80, 68, 106, 93, 99],
  [91, 73, 89, 71, 105, 88, 103],
  [92, 83, 78, 74, 108, 100, 95],
  [93, 79, 90, 77, 109, 95, 106],
  [94, 86, 81, 75, 107, 104, 101],
  [95, 92, 79, 78, 109, 108, 93],
  [96, 104, 98, 110, 76, 86, 82],
  [97, 0xff, 98, 84, 103, 89, 111],
  [98, 110, 97, 111, 82, 96, 84],
  [99, 80, 105, 88, 106, 90, 113],
  [100, 102, 83, 87, 108, 114, 92],
  [101, 102, 107, 112, 81, 85, 94],
  [102, 101, 87, 85, 114, 112, 100],
  [103, 91, 97, 89, 116, 105, 111],
  [104, 107, 110, 115, 86, 94, 96],
  [105, 88, 103, 91, 113, 99, 116],
  [106, 93, 99, 90, 117, 109, 113],
  [107, 0xff, 101, 94, 115, 104, 112],
  [108, 100, 95, 92, 118, 114, 109],
  [109, 108, 93, 95, 117, 118, 106],
  [110, 98, 104, 96, 119, 111, 115],
  [111, 97, 110, 98, 116, 103, 119],
  [112, 107, 102, 101, 120, 115, 114],
  [113, 99, 116, 105, 117, 106, 121],
  [114, 112, 100, 102, 118, 120, 108],
  [115, 110, 107, 104, 120, 119, 112],
  [116, 103, 119, 111, 113, 105, 121],
  [117, 0xff, 109, 118, 113, 121, 106],
  [118, 120, 108, 114, 117, 121, 109],
  [119, 111, 115, 110, 121, 116, 120],
  [120, 115, 114, 112, 121, 119, 118],
  [121, 116, 120, 119, 117, 113, 118]]

def NEIGHBOR_60CCW_ROTS : List (List Nat) := [
  [0, 5, 0, 0, 1, 5, 1],
  [0, 0, 1, 0, 1, 0, 1],
  [0, 0, 0, 0, 0, 5, 0],
  [0, 5, 0, 0, 2, 5, 1],
  [0, 0xff, 1, 0, 3, 4, 2],
  [0, 0, 1, 0, 1, 0, 1],
  [0, 0, 0, 3, 5, 5, 0],
  [0, 0, 0, 0, 0, 5, 0],
  [0, 5, 0, 0, 0, 5, 1],
  [0, 0, 1, 3, 0, 0, 1],
  [0, 0, 1, 3, 0, 0, 1],
  [0, 3, 3, 3, 0, 0, 0],
  [0, 5, 0, 0, 3, 5, 1],
  [0, 0, 1, 0, 1, 0, 1],
  [0, 0xff, 3, 0, 5, 2, 0],
  [0, 5, 0, 0, 4, 5, 1],
  [0, 0, 0, 0, 0, 5, 0],
  [0, 3, 3, 3, 3, 0, 3],
  [0, 0, 0, 3, 5, 5, 0],
  [0, 3, 3, 3, 0, 0, 0],
  [0, 3, 3, 3, 0, 3, 0],
  [0, 0, 0, 3, 5, 5, 0],
  [0, 0, 1, 0, 1, 0, 1],
  [0, 3, 3, 3, 0, 3, 0],
  [0, 0xff, 3, 0, 5, 2, 0],
  [0, 0, 0, 3, 0, 0, 3],
  [0, 0, 0, 0, 0, 5, 0],
  [0, 3, 0, 0, 0, 3, 3],
  [0, 0, 1, 0, 1, 0, 1],
  [0, 0, 1, 3, 0, 0, 1],
  [0, 3, 3, 3, 0, 0, 0],
  [0, 0, 0, 0, 0, 5, 0],
  [0, 3, 3, 3, 3, 0, 3],
  [0, 0, 1, 3, 0, 0, 1],
  [0, 3, 3, 3, 3, 0, 3],
  [0, 0, 3, 0, 3, 0, 3],
  [0, 0, 0, 3, 0, 0, 3],
  [0, 3, 0, 0, 0, 3, 3],
  [0, 0xff, 3, 0, 5, 2, 0],
  [0, 3, 0, 0, 3, 3, 0],
  [0, 3, 0, 0, 3, 3, 0],
  [0, 0, 0, 3, 5, 5, 0],
  [0, 0, 0, 3, 5, 5, 0],
  [0, 3, 3, 3, 0, 0, 0],
  [0, 0, 1, 3, 0, 0, 1],
  [0, 0, 3, 0, 0, 3, 3],
  [0, 0, 0, 3, 0, 3, 0],
  [0, 3, 3, 3, 0, 3, 0],
  [0, 3, 3, 3, 0, 3, 0],
  [0, 0xff, 3, 0, 5, 2, 0],
  [0, 0, 0, 3, 0, 0, 3],
  [0, 3, 0, 0, 0, 3, 3],
  [0, 0, 3, 0, 3, 0, 3],
  [0, 3, 3, 3, 0, 0, 0],
  [0, 0, 3, 0, 3, 0, 3],
  [0, 0, 3, 0, 0, 3, 3],
  [0, 3, 3, 3, 0, 0, 3],
  [0, 0, 0, 3, 0, 3, 0],
  [0, 0xff, 3, 0, 5, 2, 0],
  [0, 3, 3, 3, 3, 3, 0],
  [0, 3, 3, 3, 3, 3, 0],
  [0, 3, 3, 3, 3, 0, 3],
  [0, 3, 3, 3, 3, 0, 3],
  [0, 0xff, 3, 0, 5, 2, 0],
  [0, 0, 0, 3, 0, 0, 3],
  [0, 3, 3, 3, 0, 3, 0],
  [0, 3, 0, 0, 0, 3, 3],
  [0, 3, 0, 0, 3, 3, 0],
  [0, 3, 3, 3, 0, 0, 0],
  [0, 3, 0, 0, 3, 3, 0],
  [0, 0, 3, 0, 0, 3, 3],
  [0, 0, 0, 3, 0, 3, 0],
  [0, 0xff, 3, 0, 5, 2, 0],
  [0, 3, 3, 3, 0, 0, 3],
  [0, 3, 3, 3, 0, 0, 3],
  [0, 0, 0, 3, 0, 0, 3],
  [0, 3, 0, 0, 0, 3, 3],
  [0, 0, 0, 3, 0, 5, 0],
  [0, 3, 3, 3, 0, 0, 0],
  [0, 0, 1, 3, 1, 0, 1],
  [0, 0, 1, 3, 1, 0, 1],
  [0, 0, 3, 0, 3, 0, 3],
  [0, 0, 3, 0, 3, 0, 3],
  [0, 0xff, 3, 0, 5, 2, 0],
  [0, 0, 3, 0, 0, 3, 3],
  [0, 0, 0, 3, 0, 3, 0],
  [0, 3, 0, 0, 3, 3, 0],
  [0, 3, 3, 3, 3, 3, 0],
  [0, 0, 0, 3, 0, 5, 0],
  [0, 3, 3, 3, 3, 3, 0],
  [0, 0, 0, 0, 0, 0, 1],
  [0, 3, 3, 3, 0, 0, 0],
  [0, 0, 0, 3, 0, 5, 0],
  [0, 5, 0, 0, 5, 5, 0],
  [0, 0, 3, 0, 0, 3, 3],
  [0, 0, 0, 0, 0, 0, 1],
  [0, 0, 0, 3, 0, 3, 0],
  [0, 0xff, 3, 0, 5, 2, 0],
  [0, 3, 3, 3, 0, 0, 3],
  [0, 5, 0, 0, 5, 5, 0],
  [0, 0, 1, 3, 1, 0, 1],
  [0, 3, 3, 3, 0, 0, 3],
  [0, 3, 3, 3, 0, 0, 0],
  [0, 0, 1, 3, 1, 0, 1],
  [0, 3, 3, 3, 3, 3, 0],
  [0, 0, 0, 0, 0, 0, 1],
  [0, 0, 1, 0, 3, 5, 1],
  [0, 0xff, 3, 0, 5, 2, 0],
  [0, 5, 0, 0, 5, 5, 0],
  [0, 0, 1, 0, 4, 5, 1],
  [0, 3, 3, 3, 0, 0, 0],
  [0, 0, 0, 3, 0, 5, 0],
  [0, 0, 0, 3, 0, 5, 0],
  [0, 0, 1, 0, 2, 5, 1],
  [0, 0, 0, 0, 0, 0, 1],
  [0, 0, 1, 3, 1, 0, 1],
  [0, 5, 0, 0, 5, 5, 0],
  [0, 0xff, 1, 0, 3, 4, 2],
  [0, 0, 1, 0, 0, 5, 1],
  [0, 0, 0, 0, 0, 0, 1],
  [0, 5, 0, 0, 5, 5, 0],
  [0, 0, 1, 0, 1, 5, 1]]

def BASE_CELL_ROTATIONS : List Nat := [
  0xfffffffffffffe45,
  0xfffffffffffffe2f,
  0xffffffffffeffe45,
  0xfffffffffffff22f,
  0xffffffffffffc688,
  0xffffffffffffffc5,
  0xffffffffffeffe47,
  0xffffffffff7ff22f,
  0xffffffffffffdfc8,
  0xffffffffff7ffe2f,
  0xffffffffffefffc5,
  0xffffffffffefffc7,
  0xffffffffffff917f,
  0xfffffffffffff17f,
  0xfffffff1ff6ffe47,
  0xffffffffffff8bf9,
  0xfffffffffffddfc8,
  0xfffffff7ffe3ffdf,
  0xfffffffffffdffc8,
  0xffffffffff7ffe3f,
  0xfffffff7ff1ffeff,
  0xffffffffff7ff23f,
  0xffffffffffffdff8,
  0xfffffffeffe3ffdf,
  0xfffffffe3fedffc8,
  0xfffffff6ffe3ffdf,
  0xfffffffffbff917f,
  0xfffffff1ff6fffff,
  0xffffffffffff8bff,
  0xfffffffffbfff17f,
  0xfffffffffffdfff8,
  0xffffffffdfff8bf9,
  0xfffffffefffc7ffb,
  0xfffffffffffddff8,
  0xffffffbfff1ffeff,
  0xfffffff1ffefffff,
  0xffffffb7ff1ffeff,
  0xfffffffe3fedffff,
  0xffffff8ffb7ff23f,
  0xfffffffeffe3ffff,
  0xfffffff7ff1fffff,
  0xffffffffdfff8ff9,
  0xfffffffffbff91ff,
  0xfffffffffbfff1ff,
  0xffffffffdfff8bff,
  0xfffffff6ffe3ffff,
  0xfffbfff1ff6fffff,
  0xffffffbff8fff7ff,
  0xffffeffffffc7ffb,
  0xffffe3ffdffd8ff9,
  0xffffeffefffc7ffb,
  0xffffff8ffb7fffff,
  0xfffffffe3ffdffff,
  0xffffffffdfff8fff,
  0xffffff8fff7fffff,
  0xffffffb7ff1fffff,
  0xfffbfff1ffefffff,
  0xffff7ffe3fecffff,
  0xfffffc7fdbff91ff,
  0xffff7ffe3fefffff,
  0xfffbfff1ff7fffff,
  0xffffefffc7ffbfff,
  0xfffffdfff8fff7ff,
  0xfff83ff6ffe3ffff,
  0xfffffdbff8fff7ff,
  0xfffffdffc7ffbfff,
  0xffffe3ffdffdffff,
  0xffffeffffffc7fff,
  0xfff8fff7ffffffff,
  0xffffffbff8ffffff,
  0xffffeffefffc7fff,
  0xffdfff8ffb7fffff,
  0xffc1ffb7ff1fffff,
  0xffdfff8fff7fffff,
  0xffff7ffe3ffdffff,
  0xffffedffc7ffbfff,
  0xfffffc7fdbffffff,
  0xfff83ff7ffffffff,
  0xffff1ffeffffffff,
  0xfffd1ffeffffffff,
  0xffe8fff7ffffffff,
  0xffffe3ffdfffffff,
  0xfffffc7ffbffffff,
  0xf3ff0ffefffc7fff,
  0xfffffdbff8ffffff,
  0xf7ffe3ffdffdffff,
  0xfffffdffc7ffffff,
  0xf7ffe3fffffdffff,
  0xffc1ffbfffffffff,
  0xffdfff8ffbffffff,
  0xffe83ff7ffffffff,
  0xffc7ffbfffffffff,
  0xf3ff1ffeffffffff,
  0xfff83fffffffffff,
  0xffffedffc7ffffff,
  0xf3fd1ffeffffffff,
  0xfefffc7fdbffffff,
  0xfe0ffdbff8ffffff,
  0xfefffc7ffbffffff,
  0xffc1ffffffffffff,
  0xf1ffafffffffffff,
  0xf7ffe3ffdfffffff,
  0xf1ffefffffffffff,
  0xff47ffbfffffffff,
  0xfefffc7fdfffffff,
  0xff41ffbfffffffff,
  0xffe83fffffffffff,
  0xf07fedffc7ffffff,
  0xf3ff1fffffffffff,
  0xf3fd1fffffffffff,
  0xfe3ffdffffffffff,
  0xfe0ffdffffffffff,
  0xf07fefffffffffff,
  0xff41ffffffffffff,
  0xf07fafffffffffff,
  0xfa3ffdffffffffff,
  0xfe0fffffffffffff,
  0xf0539fffffffffff,
  0xf07fbfffffffffff,
  0xfa0ffdffffffffff,
  0xf07fffffffffffff,
  0xfa0fffffffffffff]

/-- Helper mirroring the source's `metadata!` shorthand for a hexagon
entry (no clockwise offset faces). -/
def metadataEntry (home : Nat) (i j k : Int) : Metadata :=
  Metadata.mk home (CoordIJK.mk i j k) none

/-- Helper mirroring the source's `metadata!` shorthand for a pentagon
entry carrying its two clockwise offset rotation adjacent faces. -/
def metadataEntryPent (home : Nat) (i j k : Int) (o1 o2 : Nat) : Metadata :=
  Metadata.mk home (CoordIJK.mk i j k) (some (o1, o2))

def METADATA : List Metadata := [
  metadataEntry 1 1 0 0,
  metadataEntry 2 1 1 0,
  metadataEntry 1 0 0 0,
  metadataEntry 2 1 0 0,
  metadataEntry 0 2 0 0,
  metadataEntry 1 1 1 0,
  metadataEntry 1 0 0 1,
  metadataEntry 2 0 0 0,
  metadataEntry 0 1 0 0,
  metadataEntry 2 0 1 0,
  metadataEntry 1 0 1 0,
  metadataEntry 1 0 1 1,
  metadataEntry 3 1 0 0,
  metadataEntry 3 1 1 0,
  metadataEntryPent 11 2 0 0 2 6,
  metadataEntry 4 1 0 0,
  metadataEntry 0 0 0 0,
  metadataEntry 6 0 1 0,
  metadataEntry 0 0 0 1,
  metadataEntry 2 0 1 1,
  metadataEntry 7 0 0 1,
  metadataEntry 2 0 0 1,
  metadataEntry 0 1 1 0,
  metadataEntry 6 0 0 1,
  metadataEntryPent 10 2 0 0 1 5,
  metadataEntry 6 0 0 0,
  metadataEntry 3 0 0 0,
  metadataEntry 11 1 0 0,
  metadataEntry 4 1 1 0,
  metadataEntry 3 0 1 0,
  metadataEntry 0 0 1 1,
  metadataEntry 4 0 0 0,
  metadataEntry 5 0 1 0,
  metadataEntry 0 0 1 0,
  metadataEntry 7 0 1 0,
  metadataEntry 11 1 1 0,
  metadataEntry 7 0 0 0,
  metadataEntry 10 1 0 0,
  metadataEntryPent 12 2 0 0 3 7,
  metadataEntry 6 1 0 1,
  metadataEntry 7 1 0 1,
  metadataEntry 4 0 0 1,
  metadataEntry 3 0 0 1,
  metadataEntry 3 0 1 1,
  metadataEntry 4 0 1 0,
  metadataEntry 6 1 0 0,
  metadataEntry 11 0 0 0,
  metadataEntry 8 0 0 1,
  metadataEntry 5 0 0 1,
  metadataEntryPent 14 2 0 0 0 9,
  metadataEntry 5 0 0 0,
  metadataEntry 12 1 0 0,
  metadataEntry 10 1 1 0,
  metadataEntry 4 0 1 1,
  metadataEntry 12 1 1 0,
  metadataEntry 7 1 0 0,
  metadataEntry 11 0 1 0,
  metadataEntry 10 0 0 0,
  metadataEntryPent 13 2 0 0 4 8,
  metadataEntry 10 0 0 1,
  metadataEntry 11 0 0 1,
  metadataEntry 9 0 1 0,
  metadataEntry 8 0 1 0,
  metadataEntryPent 6 2 0 0 11 15,
  metadataEntry 8 0 0 0,
  metadataEntry 9 0 0 1,
  metadataEntry 14 1 0 0,
  metadataEntry 5 1 0 1,
  metadataEntry 16 0 1 1,
  metadataEntry 8 1 0 1,
  metadataEntry 5 1 0 0,
  metadataEntry 12 0 0 0,
  metadataEntryPent 7 2 0 0 12 16,
  metadataEntry 12 0 1 0,
  metadataEntry 10 0 1 0,
  metadataEntry 9 0 0 0,
  metadataEntry 13 1 0 0,
  metadataEntry 16 0 0 1,
  metadataEntry 15 0 1 1,
  metadataEntry 15 0 1 0,
  metadataEntry 16 0 1 0,
  metadataEntry 14 1 1 0,
  metadataEntry 13 1 1 0,
  metadataEntryPent 5 2 0 0 10 19,
  metadataEntry 8 1 0 0,
  metadataEntry 14 0 0 0,
  metadataEntry 9 1 0 1,
  metadataEntry 14 0 0 1,
  metadataEntry 17 0 0 1,
  metadataEntry 12 0 0 1,
  metadataEntry 16 0 0 0,
  metadataEntry 17 0 1 1,
  metadataEntry 15 0 0 1,
  metadataEntry 16 1 0 1,
  metadataEntry 9 1 0 0,
  metadataEntry 15 0 0 0,
  metadataEntry 13 0 0 0,
  metadataEntryPent 8 2 0 0 13 17,
  metadataEntry 13 0 1 0,
  metadataEntry 17 1 0 1,
  metadataEntry 19 0 1 0,
  metadataEntry 14 0 1 0,
  metadataEntry 19 0 1 1,
  metadataEntry 17 0 1 0,
  metadataEntry 13 0 0 1,
  metadataEntry 17 0 0 0,
  metadataEntry 16 1 0 0,
  metadataEntryPent 9 2 0 0 14 18,
  metadataEntry 15 1 0 1,
  metadataEntry 15 1 0 0,
  metadataEntry 18 0 1 1,
  metadataEntry 18 0 0 1,
  metadataEntry 19 0 0 1,
  metadataEntry 17 1 0 0,
  metadataEntry 19 0 0 0,
  metadataEntry 18 0 1 0,
  metadataEntry 18 1 0 1,
  metadataEntry 19 2 0 0,
  metadataEntry 19 1 0 0,
  metadataEntry 18 0 0 0,
  metadataEntry 19 1 0 1,
  metadataEntry 18 1 0 0]

def PENTAGON_DIRECTION_FACES : List (List Nat) := [
  [4, 0, 2, 1, 3],
  [6, 11, 2, 7, 1],
  [5, 10, 1, 6, 0],
  [7, 12, 3, 8, 2],
  [9, 14, 0, 5, 4],
  [8, 13, 4, 9, 3],
  [11, 6, 15, 10, 16],
  [12, 7, 16, 11, 17],
  [10, 5, 19, 14, 15],
  [13, 8, 17, 12, 18],
  [14, 9, 18, 13, 19],
  [15, 19, 17, 18, 16]]

/-- Fallible `u8` → `BaseCell` conversion (`TryFrom<u8> for BaseCell`):
fails with an "out of range" error when `value > MAX`, otherwise wraps the
value. -/
def try_from (value : Nat) : Except InvalidBaseCell Nat :=
  if value > MAX then .error ⟨value, "out of range"⟩ else .ok value

/-- Total number of base cells (`BaseCell::count`). -/
def count : Nat := MAX + 1

/-- All the base cells (`BaseCell::iter`): the range `0..count()` mapped
through the value wrapper (`new_unchecked`, the identity on the value). -/
def iter : List Nat := (List.range count).map (fun v => v)

/-- `BaseCell::is_pentagon`: bit test against the pentagon membership
bitmap. -/
def is_pentagon (b : Nat) : Bool :=
  BASE_PENTAGONS &&& (1 <<< b) != 0

/-- `BaseCell::is_polar_pentagon`: direct equality check against the two
polar pentagon values. -/
def is_polar_pentagon (b : Nat) : Bool :=
  b == 4 || b == 117

/-- `BaseCell::rotation_count`: the 3-bit field of the packed per-face
rotation table (`table[cell] >> (face * 3) & 0b111`).  The source
debug-asserts that the field is not the `0b111` "no cell on this face"
sentinel before returning it. -/
def rotation_count (b face : Nat) : Nat :=
  (BASE_CELL_ROTATIONS.getD b 0 >>> (face * 3)) &&& 0b111

/-- Fuel-driven binary popcount; `countOnesAux 128` agrees with
`u128::count_ones` on every value below `2 ^ 128`. -/
def countOnesAux : Nat → Nat → Nat
  | 0, _ => 0
  | fuel + 1, n => n % 2 + countOnesAux fuel (n / 2)

/-- `u128::count_ones` on the 128-bit pentagon bitmap domain. -/
def countOnes (n : Nat) : Nat := countOnesAux 128 n

/-- The pentagon-table index computed inside
`BaseCell::pentagon_direction_faces`: the number of pentagon-membership
bits set below this cell's value
(`(BASE_PENTAGONS & ((1 << value) - 1)).count_ones()`). -/
def pentagonIndex (b : Nat) : Nat :=
  countOnes (BASE_PENTAGONS &&& ((1 <<< b) - 1))

/-- `BaseCell::pentagon_direction_faces`: row of the pentagon
direction-to-face table selected by `pentagonIndex`.  The source
debug-asserts `is_pentagon` first. -/
def pentagon_direction_faces (b : Nat) : List Nat :=
  PENTAGON_DIRECTION_FACES.getD (pentagonIndex b) []

/-- `BaseCell::neighbor`: look up the raw table entry and run it through
the fallible constructor (`Self::try_from(value).ok()`), so the `0xff`
"no neighbor" sentinel becomes `none`. -/
def neighbor (b direction : Nat) : Option Nat :=
  (try_from ((NEIGHBORS.getD b []).getD direction 0xff)).toOption

/-- `BaseCell::neighbor_rotation`: the number of 60° ccw rotations to the
coordinate system of the neighbor in the given direction.  The source
debug-asserts the entry is not the `0xff` sentinel. -/
def neighbor_rotation (b direction : Nat) : Nat :=
  (NEIGHBOR_60CCW_ROTS.getD b []).getD direction 0xff

/-- `BaseCell::direction`: position of the first entry of this cell's
neighbor row equal to the candidate cell (`iter().position(...)`), as a
`Direction` index. -/
def direction (self other : Nat) : Option Nat :=
  (NEIGHBORS.getD self []).findIdx? (fun cell => other == cell)

/-- `BaseCell::metadata`: this cell's row of the metadata table. -/
def metadata (b : Nat) : Metadata :=
  METADATA.getD b ⟨0, ⟨0, 0, 0⟩, none⟩

/-- Direction `K` sits at index 1 in the direction order used by the
tables: the source comments call column 1's `0xff` entries "pentagonal
base cells in the K axe". -/
def kAxe : Nat := 1

/-- Modelled from the spec: a `Direction` is one of 7 hex-grid step
directions (a center value plus 6 radial directions at 60° intervals;
the `Direction` type itself lives outside the provided sources).
Rotating a radial direction by 180° negates its ijk unit vector, giving
the involution 1 ↔ 6 (K ↔ IJ), 2 ↔ 5 (J ↔ IK), 3 ↔ 4 (JK ↔ I), with the
center direction fixed. -/
def oppositeDirection : Nat → Nat
  | 1 => 6
  | 2 => 5
  | 3 => 4
  | 4 => 3
  | 5 => 2
  | 6 => 1
  | d => d

set_option maxRecDepth 1000000

/-- Bounded existentials over the direction/cell index ranges, decided by
scanning `List.range`. -/
instance instDecidableExistsLtNat (n : Nat) (P : Nat → Prop) [DecidablePred P] :
    Decidable (∃ e, e < n ∧ P e) :=
  decidable_of_iff (∃ e ∈ List.range n, P e) (by simp [List.mem_range])

/-- Propositions guarded by an `Option`-returning lookup yielding `some` are
decided by one evaluation of the option. -/
instance instDecidableForallOptionSome (o : Option Nat) (Q : Nat → Prop)
    [DecidablePred Q] : Decidable (∀ c, o = some c → Q c) :=
  match o with
  | none => isTrue (fun _ h => Option.noConfusion h)
  | some a =>
      decidable_of_iff (Q a)
        ⟨fun h _ hc => Option.some.inj hc ▸ h, fun h => h a rfl⟩

/-- C1: for every base cell `a` and every direction `d` such that
`neighbor a d` returns `some c`, there exists a direction `e` such that
`neighbor c e` returns `some a`. -/
theorem c1_neighbor_invertible : ∀ a, a < 122 → ∀ d, d < 7 → ∀ c,
    neighbor a d = some c → ∃ e, e < 7 ∧ neighbor c e = some a := by
  decide

/-- C1 witness: cell 0's neighbor in direction 1 is cell 1, and some
direction leads from cell 1 back to cell 0. -/
theorem c1_witness : ∃ e, e < 7 ∧ neighbor 1 e = some 0 :=
  c1_neighbor_invertible 0 (by decide) 1 (by decide) 1 (by decide)

/-- C2: for every base cell `b` and direction `d`, `neighbor b d` returns
`none` if and only if `b` is pentagonal and `d` is the K direction; every
other (cell, direction) pair has a neighboring base cell. -/
theorem c2_no_neighbor_iff_pentagon_k : ∀ b, b < 122 → ∀ d, d < 7 →
    (neighbor b d = none ↔ (is_pentagon b = true ∧ d = kAxe)) := by
  decide

/-- C2 witness: pentagonal cell 4 has no neighbor in the K direction. -/
theorem c2_witness : neighbor 4 1 = none :=
  (c2_no_neighbor_iff_pentagon_k 4 (by decide) 1 (by decide)).mpr (by decide)

/-- C3: for every base cell and every face on which the cell has a presence
(its packed 3-bit rotation field is not the all-ones sentinel `0b111`),
`rotation_count` returns a value in `[0, 5]`; under this precondition the
"no cell on face" assertion branch of the source is unreachable. -/
theorem c3_rotation_count_range : ∀ b, b < 122 → ∀ f, f < 20 →
    rotation_count b f ≠ 0b111 → rotation_count b f ≤ 5 := by
  decide

/-- C3 witness: cell 0 has a presence on face 0 and its rotation count
there is at most 5. -/
theorem c3_witness : rotation_count 0 0 ≤ 5 :=
  c3_rotation_count_range 0 (by decide) 0 (by decide) (by decide)

/-- C4: the iterator over all base cells yields exactly 122 distinct values,
in ascending numeric order from 0 to 121; exactly 12 of them satisfy
`is_pentagon`; and `count` returns 122. -/
theorem c4_base_cell_enumeration :
    iter.length = 122 ∧ iter.Nodup ∧ iter = List.range 122 ∧
      (iter.filter is_pentagon).length = 12 ∧ count = 122 := by
  decide

/-- C5: the fallible integer-to-base-cell conversion succeeds on every `u8`
value in `[0, 121]`, returning the input value, and fails with an "out of
range" error carrying the offending value on every larger `u8` value; in
particular 121 succeeds and 122 fails. -/
theorem c5_try_from_range :
    (∀ v, v < 256 →
      ((v ≤ 121 → try_from v = .ok v) ∧
       (121 < v → try_from v = .error ⟨v, "out of range"⟩))) ∧
    try_from 121 = .ok 121 ∧
    try_from 122 = .error ⟨122, "out of range"⟩ := by
  refine ⟨fun v _ => ⟨fun h => ?_, fun h => ?_⟩, rfl, rfl⟩
  · unfold try_from MAX
    rw [if_neg (by omega)]
  · unfold try_from MAX
    rw [if_pos (by omega)]

/-- C5 witness: converting 7 succeeds with value 7. -/
theorem c5_witness : try_from 7 = Except.ok 7 :=
  (c5_try_from_range.1 7 (by decide)).1 (by decide)

/-- C6: `direction` is the inverse of `neighbor`: whenever `neighbor a d`
returns `some c`, `direction a c` returns `some d`; `direction a c` returns
`none` whenever `c` appears in no direction slot of `a`'s neighbor row; and
for a fixed origin at most one direction maps to any given cell, so the
returned direction is unique. -/
theorem c6_direction_inverse :
    (∀ a, a < 122 → ∀ d, d < 7 → ∀ c,
      neighbor a d = some c → direction a c = some d) ∧
    (∀ a, a < 122 → ∀ c, c < 122 →
      c ∉ NEIGHBORS.getD a [] → direction a c = none) ∧
    (∀ a, a < 122 → ∀ d₁, d₁ < 7 → ∀ d₂, d₂ < 7 → ∀ c,
      neighbor a d₁ = some c → neighbor a d₂ = some c → d₁ = d₂) := by
  have fwd : ∀ a, a < 122 → ∀ d, d < 7 → ∀ c,
      neighbor a d = some c → direction a c = some d := by decide
  refine ⟨fwd, ?_, ?_⟩
  · intro a _ c _ h
    unfold direction
    rw [List.findIdx?_eq_none_iff]
    intro x hx
    exact beq_eq_false_iff_ne.mpr fun e => h (e ▸ hx)
  · intro a ha d₁ hd₁ d₂ hd₂ c h₁ h₂
    exact Option.some.inj ((fwd a ha d₁ hd₁ c h₁).symm.trans (fwd a ha d₂ hd₂ c h₂))

/-- C6 witness: cell 0's neighbor in direction 1 is cell 1, and the inverse
lookup from 0 to 1 returns direction 1. -/
theorem c6_witness : direction 0 1 = some 1 :=
  c6_direction_inverse.1 0 (by decide) 1 (by decide) 1 (by decide)

/-- C7: for every pentagonal base cell, `pentagon_direction_faces` returns
exactly 5 faces with no duplicates, and the selected row index is the count
of pentagon-membership bits below the cell's value, so the ascending
pentagon cell values map to the ascending row indices 0 through 11. -/
theorem c7_pentagon_direction_faces_table :
    (∀ b, b < 122 → is_pentagon b = true →
      (pentagon_direction_faces b).length = 5 ∧
        (pentagon_direction_faces b).Nodup) ∧
    ((List.range 122).filter is_pentagon).map pentagonIndex = List.range 12 := by
  constructor
  · decide
  · decide

/-- C7 witness: pentagonal cell 4's direction-face list has 5 pairwise
distinct faces. -/
theorem c7_witness :
    (pentagon_direction_faces 4).length = 5 ∧ (pentagon_direction_faces 4).Nodup :=
  c7_pentagon_direction_faces_table.1 4 (by decide) (by decide)

/-- C8: `is_polar_pentagon` holds exactly for base cells 4 and 117, and both
of those cells are pentagons. -/
theorem c8_polar_pentagon_set :
    (∀ b, b < 122 → (is_polar_pentagon b = true ↔ (b = 4 ∨ b = 117))) ∧
    is_pentagon 4 = true ∧ is_pentagon 117 = true := by
  exact ⟨by decide, by decide, by decide⟩

/-- C8 witness: cell 4 is recognized as a polar pentagon. -/
theorem c8_witness : is_polar_pentagon 4 = true ↔ ((4:Nat) = 4 ∨ (4:Nat) = 117) :=
  c8_polar_pentagon_set.1 4 (by decide)

/-- C9 counterexample: cell 0's neighbor in direction K (index 1) is cell 1,
but cell 1's neighbor in the 180°-opposite direction (IJ, index 6) is
cell 2, not cell 0 — the step from 0 to 1 crosses into a rotated coordinate
frame (`neighbor_rotation 0 1 = 5`), so the claimed symmetry fails. -/
theorem c9_counterexample :
    neighbor 0 1 = some 1 ∧ oppositeDirection 1 = 6 ∧
      neighbor 1 (oppositeDirection 1) = some 2 ∧
      neighbor 1 (oppositeDirection 1) ≠ some 0 ∧
      neighbor_rotation 0 1 = 5 := by
  decide

set_option synthInstance.maxHeartbeats 2000000 in
set_option synthInstance.maxSize 2000 in
set_option maxHeartbeats 3200000 in
/-- C9 (amended): for every base cell `a` and non-center direction `d` with
`neighbor a d = some c`, some non-center direction leads from `c` back to
`a`, and that direction is the 180°-opposite of `d` whenever the step's
neighbor rotation count is 0; when the step crosses into a rotated frame
the return direction generally differs from the plain opposite. -/
theorem c9_neighbor_symmetry : ∀ a, a < 122 → ∀ d, d < 7 → ∀ c,
    neighbor a d = some c → 0 < d →
      (∃ e, e < 7 ∧ 0 < e ∧ neighbor c e = some a) ∧
      (neighbor_rotation a d = 0 → neighbor c (oppositeDirection d) = some a) := by
  decide

/-- C9 witness: cell 2's neighbor in direction 2 is cell 10 with rotation
count 0, and cell 10's neighbor in the opposite direction (5) is cell 2. -/
theorem c9_witness : neighbor 10 (oppositeDirection 2) = some 2 :=
  (c9_neighbor_symmetry 2 (by decide) 2 (by decide) 10 (by decide) (by decide)).2
    (by decide)

/-- C10: for every base cell, the rotation count on the cell's own home face
(the face recorded in its metadata) is 0: no rotation is needed to view a
cell from its home face. -/
theorem c10_home_face_rotation_zero : ∀ b, b < 122 →
    rotation_count b (metadata b).home = 0 := by
  decide

/-- C10 witness: cell 7's home face needs no rotation. -/
theorem c10_witness : rotation_count 7 (metadata 7).home = 0 :=
  c10_home_face_rotation_zero 7 (by decide)
